import Mathlib

/-!
# Verification of the `connchk` resource-checking engine (`src/lib.rs`)

Shallow embedding of the core library of `connchk`, a command-line tool that
checks reachability of TCP and HTTP(S) endpoints declared in a TOML file.

Modelling decisions:
* Network I/O is an oracle (`Network`): each kind of outbound operation is a
  function from its request data to an `Except String _` outcome, standing for
  `Result<_, Box<dyn Error>>` in the Rust source.  Errors are carried as their
  display strings, which is all the source ever does with them (`format!("{}", e)`).
* Every check function returns, next to its `Result`, the list of network
  actions it performed (`List Request`), so that "sends no request",
  "exactly one request" and "closes the connection" are statable.
* `reqwest::StatusCode` is modelled by its numeric `u16` code (a `Nat`);
  `StatusCode::as_str` renders that number in decimal, and
  `resp.status() == StatusCode::OK` is `status = 200`.
* `resp.text()` (reading the response body) can itself fail, so an
  `HttpResponse` carries `body : Except String String`.
* `serde_json::Value` is opaque to the checker (it is only handed to the
  client), so it is modelled as an abstract payload (`Json`).
* `HashMap<String, String>` form parameters are likewise only handed to the
  client; they are modelled as an association list.
* `Instant::now()/elapsed()` wall-clock timing is an oracle `ms : Nat → Nat`
  giving each target's elapsed milliseconds by position.
* `par_iter_mut().for_each` (rayon) is modelled by an explicit completion
  schedule: `runSchedule` applies the per-target slot writes in an arbitrary
  order given by a list of indices; a real parallel run corresponds to a
  schedule that is a permutation of the index range.  Each task reads only its
  own target's immutable fields and writes only its own `res` slot, exactly as
  in the source.
-/

deriving instance DecidableEq for Except

namespace Connchk

/-- `serde_json::Value`: opaque to the checker, which only passes it through
to the HTTP client. -/
structure Json where
  payload : String
deriving DecidableEq

/-- `HttpOptions` (src/lib.rs lines 52-57): optional parameters for custom
HTTP(S) checks. -/
structure HttpOptions where
  params : Option (List (String × String))
  json : Option Json
  ok : Nat
deriving DecidableEq

/-- `ResType` (src/lib.rs lines 147-153): classifies the resource type. -/
inductive ResType where
  | Http
  | Tcp
deriving DecidableEq

/-- `Resource` (src/lib.rs lines 60-67): a generic resource combining all
possible fields into a common type. -/
structure Resource where
  desc : String
  addr : String
  custom : Option HttpOptions
  kind : ResType
  res : Option String
deriving DecidableEq

/-- One outbound network action performed by a check. -/
inductive Request where
  | tcpConnect (addr : String)
  | tcpShutdownBoth (addr : String)
  | httpGet (addr : String)
  | httpPostForm (addr : String) (params : List (String × String))
  | httpPostJson (addr : String) (json : Json)
deriving DecidableEq

/-- An HTTP response as the checker observes it: the numeric status code
(`resp.status().as_u16()`, also rendered by `as_str`), and the outcome of
reading the body (`resp.text()`), which may itself fail. -/
structure HttpResponse where
  status : Nat
  body : Except String String
deriving DecidableEq

/-- The network oracle: the outcome of each possible outbound operation.
`tcpConnect` is `TcpStream::connect`, `tcpShutdown` is
`stream.shutdown(Shutdown::Both)`, `get` is `client.get(..).send()`,
`postForm` is `client.post(..).form(..).send()`, `postJson` is
`client.post(..).json(..).send()`. -/
structure Network where
  tcpConnect : String → Except String Unit
  tcpShutdown : String → Except String Unit
  get : String → Except String HttpResponse
  postForm : String → List (String × String) → Except String HttpResponse
  postJson : String → Json → Except String HttpResponse

/-- The failure-detail message built for a non-matching status
(`format!("\n\tStatus: {}\n\tDetails: {}", resp.status().as_str(), resp.text()?)`). -/
def statusDetailMsg (status : Nat) (bodyText : String) : String :=
  "\n\tStatus: " ++ toString status ++ "\n\tDetails: " ++ bodyText

/-- `Resource::check_http_basic` (src/lib.rs lines 90-99): GET the address;
`Ok(())` iff the status is `200 OK`, otherwise build the detail message —
where `resp.text()?` propagates a body-read error instead. -/
def Resource.check_http_basic (r : Resource) (net : Network) :
    Except String Unit × List Request :=
  match net.get r.addr with
  | Except.error e => (Except.error e, [Request.httpGet r.addr])
  | Except.ok resp =>
    if resp.status = 200 then
      (Except.ok (), [Request.httpGet r.addr])
    else
      match resp.body with
      | Except.error e => (Except.error e, [Request.httpGet r.addr])
      | Except.ok t =>
        (Except.error (statusDetailMsg resp.status t), [Request.httpGet r.addr])

/-- `Resource::custom_http_resp` (src/lib.rs lines 126-134): `Ok(())` iff the
numeric status code equals `options.ok`, otherwise the detail message, with
`resp.text()?` propagating a body-read error. -/
def Resource.custom_http_resp (_r : Resource) (options : HttpOptions)
    (resp : HttpResponse) : Except String Unit :=
  if resp.status = options.ok then
    Except.ok ()
  else
    match resp.body with
    | Except.error e => Except.error e
    | Except.ok t => Except.error (statusDetailMsg resp.status t)

/-- `Resource::check_http_custom` (src/lib.rs lines 106-122): POST a form if
`params` is set, else POST JSON if `json` is set, else do nothing; the
`if let` chain falls through to `Ok(())` when neither branch fires. -/
def Resource.check_http_custom (r : Resource) (options : HttpOptions)
    (net : Network) : Except String Unit × List Request :=
  match options.params with
  | some params =>
    (match net.postForm r.addr params with
     | Except.error e => Except.error e
     | Except.ok resp => r.custom_http_resp options resp,
     [Request.httpPostForm r.addr params])
  | none =>
    match options.json with
    | some j =>
      (match net.postJson r.addr j with
       | Except.error e => Except.error e
       | Except.ok resp => r.custom_http_resp options resp,
       [Request.httpPostJson r.addr j])
    | none => (Except.ok (), [])

/-- `Resource::check_tcp` (src/lib.rs lines 139-143):
`TcpStream::connect(&self.addr)?` then `stream.shutdown(Shutdown::Both)?`. -/
def Resource.check_tcp (r : Resource) (net : Network) :
    Except String Unit × List Request :=
  match net.tcpConnect r.addr with
  | Except.error e => (Except.error e, [Request.tcpConnect r.addr])
  | Except.ok _ =>
    match net.tcpShutdown r.addr with
    | Except.error e =>
      (Except.error e, [Request.tcpConnect r.addr, Request.tcpShutdownBoth r.addr])
    | Except.ok _ =>
      (Except.ok (), [Request.tcpConnect r.addr, Request.tcpShutdownBoth r.addr])

/-- `Resource::check` (src/lib.rs lines 71-85): dispatch on `kind`, and for
HTTP on whether `custom` options are present. -/
def Resource.check (r : Resource) (net : Network) :
    Except String Unit × List Request :=
  match r.kind with
  | ResType.Tcp => r.check_tcp net
  | ResType.Http =>
    match r.custom with
    | some opts => r.check_http_custom opts net
    | none => r.check_http_basic net

/-- The result string one rayon task writes into its target's `res` slot
(src/lib.rs lines 171-182): success with latency, or failure with the check's
error display. -/
def resultMsg (net : Network) (elapsedMs : Nat) (r : Resource) : String :=
  match (r.check net).1 with
  | Except.ok _ =>
    "Successfully connected to " ++ r.desc ++ " in " ++ toString elapsedMs ++ "ms"
  | Except.error e =>
    "Failed to connect to " ++ r.desc ++ " with: " ++ e

/-- What one rayon task does to its own target: fill the `res` slot, leaving
every other field unchanged. -/
def checkedTarget (net : Network) (elapsedMs : Nat) (r : Resource) : Resource :=
  { r with res := some (resultMsg net elapsedMs r) }

/-- The deterministic denotation of the parallel check phase: every target's
slot filled, by declaration position `k`, `k+1`, ... -/
def checkAllFrom (net : Network) (ms : Nat → Nat) : Nat → List Resource → List Resource
  | _, [] => []
  | k, r :: rs => checkedTarget net (ms k) r :: checkAllFrom net ms (k + 1) rs

/-- The report lines, in declaration order, that the checked targets produce. -/
def reportLines (net : Network) (ms : Nat → Nat) : Nat → List Resource → List String
  | _, [] => []
  | k, r :: rs => resultMsg net (ms k) r :: reportLines net ms (k + 1) rs

/-- `NetworkResources` (src/lib.rs lines 157-160). -/
structure NetworkResources where
  target : List Resource
deriving DecidableEq

/-- `NetworkResources::check_resources` (src/lib.rs lines 168-191): run every
target's check (filling each `res` slot), then iterate the targets in their
stored order and print each non-`None` `res`.  Returns the mutated resource
set together with the printed lines. -/
def NetworkResources.check_resources (net : Network) (ms : Nat → Nat)
    (nr : NetworkResources) : NetworkResources × List String :=
  let t := checkAllFrom net ms 0 nr.target
  ({ target := t }, t.filterMap (fun r => r.res))

/-- One completion step of the parallel phase: the task for index `i`
finishes, writing `checkedTarget` of the original target at `i` into slot `i`
(each task reads only its own target's immutable fields, which no task
writes). Out-of-range indices are no-ops. -/
def writeSlot (net : Network) (ms : Nat → Nat) (rs : List Resource)
    (acc : List Resource) (i : Nat) : List Resource :=
  match rs[i]? with
  | some r => acc.set i (checkedTarget net (ms i) r)
  | none => acc

/-- The parallel check phase under an explicit completion schedule: the slot
writes of `par_iter_mut().for_each` land in the order the checks complete. -/
def runSchedule (net : Network) (ms : Nat → Nat) (rs : List Resource)
    (sched : List Nat) : List Resource :=
  sched.foldl (writeSlot net ms rs) rs

theorem writeSlot_length (net : Network) (ms : Nat → Nat) (rs acc : List Resource)
    (i : Nat) : (writeSlot net ms rs acc i).length = acc.length := by
  unfold writeSlot
  cases rs[i]? <;> simp

theorem foldl_writeSlot_getElem? (net : Network) (ms : Nat → Nat) (rs : List Resource)
    (sched : List Nat) :
    ∀ (acc : List Resource), acc.length = rs.length → ∀ (j : Nat),
      (sched.foldl (writeSlot net ms rs) acc)[j]? =
        if j ∈ sched ∧ j < rs.length then (rs[j]?).map (checkedTarget net (ms j))
        else acc[j]? := by
  induction sched with
  | nil =>
    intro acc _ j
    simp
  | cons i sched ih =>
    intro acc hlen j
    have hlen' : (writeSlot net ms rs acc i).length = rs.length := by
      rw [writeSlot_length]; exact hlen
    rw [List.foldl_cons, ih _ hlen' j]
    by_cases hmem : j ∈ sched ∧ j < rs.length
    · rw [if_pos hmem, if_pos ⟨List.mem_cons_of_mem i hmem.1, hmem.2⟩]
    · rw [if_neg hmem]
      by_cases hij : j = i
      · subst hij
        by_cases hj : j < rs.length
        · obtain ⟨r, hr⟩ : ∃ r, rs[j]? = some r :=
            ⟨rs[j], by simp [hj]⟩
          unfold writeSlot
          rw [hr, List.getElem?_set_self (by rw [hlen]; exact hj),
            if_pos ⟨List.mem_cons_self j sched, hj⟩]
          rfl
        · have hnone : rs[j]? = none := List.getElem?_eq_none (Nat.le_of_not_lt hj)
          unfold writeSlot
          rw [hnone, if_neg (fun hc => hj hc.2)]
      · have hacc : (writeSlot net ms rs acc i)[j]? = acc[j]? := by
          unfold writeSlot
          cases rs[i]? with
          | none => rfl
          | some r => exact List.getElem?_set_ne (fun h => hij h.symm)
        rw [hacc, if_neg]
        intro hc
        rcases List.mem_cons.1 hc.1 with h1 | h1
        · exact hij h1
        · exact hmem ⟨h1, hc.2⟩

theorem runSchedule_getElem? (net : Network) (ms : Nat → Nat) (rs : List Resource)
    (sched : List Nat) (j : Nat) :
    (runSchedule net ms rs sched)[j]? =
      if j ∈ sched ∧ j < rs.length then (rs[j]?).map (checkedTarget net (ms j))
      else rs[j]? :=
  foldl_writeSlot_getElem? net ms rs sched rs rfl j

theorem checkAllFrom_length (net : Network) (ms : Nat → Nat) :
    ∀ (rs : List Resource) (k : Nat), (checkAllFrom net ms k rs).length = rs.length := by
  intro rs
  induction rs with
  | nil => intro k; simp [checkAllFrom]
  | cons r rs ih => intro k; simp [checkAllFrom, ih]

theorem checkAllFrom_getElem? (net : Network) (ms : Nat → Nat) :
    ∀ (rs : List Resource) (k j : Nat),
      (checkAllFrom net ms k rs)[j]? = (rs[j]?).map (checkedTarget net (ms (k + j))) := by
  intro rs
  induction rs with
  | nil => intro k j; simp [checkAllFrom]
  | cons r rs ih =>
    intro k j
    cases j with
    | zero => simp [checkAllFrom]
    | succ j =>
      have harith : k + 1 + j = k + (j + 1) := by omega
      simp [checkAllFrom, ih (k + 1) j, harith]

theorem runSchedule_eq_checkAllFrom (net : Network) (ms : Nat → Nat)
    (rs : List Resource) (sched : List Nat) (h : sched.Perm (List.range rs.length)) :
    runSchedule net ms rs sched = checkAllFrom net ms 0 rs := by
  apply List.ext_getElem?
  intro j
  rw [runSchedule_getElem?, checkAllFrom_getElem?]
  by_cases hj : j < rs.length
  · rw [if_pos ⟨h.mem_iff.2 (List.mem_range.2 hj), hj⟩, Nat.zero_add]
  · rw [if_neg (fun hc => hj hc.2), List.getElem?_eq_none (Nat.le_of_not_lt hj)]
    rfl

theorem checkAllFrom_filterMap_res (net : Network) (ms : Nat → Nat) :
    ∀ (rs : List Resource) (k : Nat),
      (checkAllFrom net ms k rs).filterMap (fun r => r.res) = reportLines net ms k rs := by
  intro rs
  induction rs with
  | nil => intro k; simp [checkAllFrom, reportLines]
  | cons r rs ih =>
    intro k
    simp [checkAllFrom, reportLines, checkedTarget, List.filterMap_cons, ih]

theorem check_of_http_basic (r : Resource) (net : Network)
    (hk : r.kind = ResType.Http) (hc : r.custom = none) :
    r.check net = r.check_http_basic net := by
  unfold Resource.check
  rw [hk, hc]

theorem check_of_http_custom (r : Resource) (net : Network) (opts : HttpOptions)
    (hk : r.kind = ResType.Http) (hc : r.custom = some opts) :
    r.check net = r.check_http_custom opts net := by
  unfold Resource.check
  rw [hk, hc]

theorem check_of_tcp (r : Resource) (net : Network) (hk : r.kind = ResType.Tcp) :
    r.check net = r.check_tcp net := by
  unfold Resource.check
  rw [hk]

/-! Concrete objects used by the witness theorems. -/

/-- A concrete network oracle: one address answers 200, everything else 404;
TCP always connects and shuts down cleanly; POSTs answer 201/200. -/
def cNet : Network where
  tcpConnect := fun _ => Except.ok ()
  tcpShutdown := fun _ => Except.ok ()
  get := fun a =>
    if a = "https://ok.example" then Except.ok { status := 200, body := Except.ok "hello" }
    else Except.ok { status := 404, body := Except.ok "missing" }
  postForm := fun _ _ => Except.ok { status := 201, body := Except.ok "created" }
  postJson := fun _ _ => Except.ok { status := 200, body := Except.ok "fine" }

/-- Concrete per-target elapsed milliseconds. -/
def cMs : Nat → Nat := fun i => 5 * i + 3

/-- A basic HTTP target that reaches a 200 endpoint. -/
def cHttpOk : Resource :=
  { desc := "web", addr := "https://ok.example", custom := none,
    kind := ResType.Http, res := none }

/-- A basic HTTP target that reaches a 404 endpoint. -/
def cHttpBad : Resource :=
  { desc := "bad", addr := "https://bad.example", custom := none,
    kind := ResType.Http, res := none }

/-- A concrete two-target resource set. -/
def cNR : NetworkResources := { target := [cHttpOk, cHttpBad] }

/-- C1: after `check_resources`, the report is produced by iterating the
targets in their original declaration order, printing each non-empty result
slot, and it is the same for every completion order of the concurrent checks:
under any schedule that is a permutation of the index range, the filled
resource list yields exactly the `check_resources` report, which equals the
declaration-order report lines. -/
theorem c1_report_declaration_order (net : Network) (ms : Nat → Nat)
    (nr : NetworkResources) (sched : List Nat)
    (h : sched.Perm (List.range nr.target.length)) :
    (runSchedule net ms nr.target sched).filterMap (fun r => r.res)
      = (NetworkResources.check_resources net ms nr).2
    ∧ (NetworkResources.check_resources net ms nr).2 = reportLines net ms 0 nr.target := by
  constructor
  · rw [runSchedule_eq_checkAllFrom net ms nr.target sched h]
    rfl
  · exact checkAllFrom_filterMap_res net ms nr.target 0

/-- Witness for C1 at a concrete two-target set with the reversed completion
schedule `[1, 0]` (the first-declared target finishes last). -/
theorem c1_report_declaration_order_witness :
    (runSchedule cNet cMs cNR.target [1, 0]).filterMap (fun r => r.res)
      = (NetworkResources.check_resources cNet cMs cNR).2
    ∧ (NetworkResources.check_resources cNet cMs cNR).2 = reportLines cNet cMs 0 cNR.target :=
  c1_report_declaration_order cNet cMs cNR [1, 0] (by decide)

/-- C3: every target's result slot is written exactly once (its index occurs
exactly once in any permutation completion schedule — no target is checked
twice), transitioning it from absent to present, and the written string is
the success format `"Successfully connected to <desc> in <ms>ms"` on check
success and `"Failed to connect to <desc> with: <detail>"` on check
failure. -/
theorem c3_result_written_once (net : Network) (ms : Nat → Nat)
    (nr : NetworkResources) (sched : List Nat)
    (h : sched.Perm (List.range nr.target.length)) (i : Nat) (r : Resource)
    (hi : nr.target[i]? = some r) (hres : r.res = none) :
    sched.count i = 1
    ∧ (runSchedule net ms nr.target sched)[i]? = some (checkedTarget net (ms i) r)
    ∧ r.res = none
    ∧ (checkedTarget net (ms i) r).res = some (resultMsg net (ms i) r)
    ∧ ((r.check net).1 = Except.ok () →
        resultMsg net (ms i) r
          = "Successfully connected to " ++ r.desc ++ " in " ++ toString (ms i) ++ "ms")
    ∧ (∀ e, (r.check net).1 = Except.error e →
        resultMsg net (ms i) r = "Failed to connect to " ++ r.desc ++ " with: " ++ e) := by
  have hlt : i < nr.target.length := by
    rcases List.getElem?_eq_some_iff.1 hi with ⟨hl, _⟩
    exact hl
  refine ⟨?_, ?_, hres, rfl, ?_, ?_⟩
  · rw [h.count_eq]
    exact List.count_eq_one_of_mem (List.nodup_range _) (List.mem_range.2 hlt)
  · rw [runSchedule_getElem?, if_pos ⟨h.mem_iff.2 (List.mem_range.2 hlt), hlt⟩, hi]
    rfl
  · intro hok
    unfold resultMsg
    rw [hok]
  · intro e he
    unfold resultMsg
    rw [he]

/-- Witness for C3 at a concrete input: target 0 of the two-target set under
the reversed schedule `[1, 0]`. -/
theorem c3_result_written_once_witness :
    List.count 0 [1, 0] = 1
    ∧ (runSchedule cNet cMs cNR.target [1, 0])[0]? = some (checkedTarget cNet (cMs 0) cHttpOk)
    ∧ (checkedTarget cNet (cMs 0) cHttpOk).res = some (resultMsg cNet (cMs 0) cHttpOk) := by
  have h := c3_result_written_once cNet cMs cNR [1, 0] (by decide) 0 cHttpOk rfl rfl
  exact ⟨h.1, h.2.1, h.2.2.2.1⟩

/-- C4: a basic HTTP target (no custom options) issues exactly one GET to its
address; a transport error is a failure carrying that error; when a response
arrives the check succeeds iff the status is exactly 200, and on any other
status with a readable body the failure detail is the status/body message. -/
theorem c4_http_basic_get_200 (r : Resource) (net : Network)
    (hk : r.kind = ResType.Http) (hc : r.custom = none) :
    (r.check net).2 = [Request.httpGet r.addr]
    ∧ (∀ e, net.get r.addr = Except.error e → (r.check net).1 = Except.error e)
    ∧ (∀ resp, net.get r.addr = Except.ok resp →
        (((r.check net).1 = Except.ok ()) ↔ resp.status = 200)
        ∧ (∀ t, resp.body = Except.ok t → resp.status ≠ 200 →
            (r.check net).1 = Except.error (statusDetailMsg resp.status t))) := by
  rw [check_of_http_basic r net hk hc]
  unfold Resource.check_http_basic
  refine ⟨?_, ?_, ?_⟩
  · cases net.get r.addr with
    | error e => rfl
    | ok resp =>
      by_cases hs : resp.status = 200 <;> cases hb : resp.body <;> simp [hs, hb]
  · intro e he
    rw [he]
  · intro resp hresp
    by_cases hs : resp.status = 200
    · rw [hresp]
      refine ⟨?_, ?_⟩
      · simp [hs]
      · intro t _ h200
        exact absurd hs h200
    · rw [hresp]
      refine ⟨?_, ?_⟩
      · cases hb : resp.body <;> simp [hs, hb]
      · intro t ht _
        simp [hs, ht]

/-- Witness for C4 at a concrete basic HTTP target whose endpoint answers
404: the check fails with the status/body detail. -/
theorem c4_http_basic_get_200_witness :
    (cHttpBad.check cNet).2 = [Request.httpGet cHttpBad.addr]
    ∧ (cHttpBad.check cNet).1
        = Except.error (statusDetailMsg 404 "missing") := by
  have h := c4_http_basic_get_200 cHttpBad cNet rfl rfl
  refine ⟨h.1, ?_⟩
  have hresp : cNet.get cHttpBad.addr
      = Except.ok { status := 404, body := Except.ok "missing" } := by decide
  exact (h.2.2 _ hresp).2 "missing" rfl (by decide)

theorem custom_http_resp_ok_iff (r : Resource) (opts : HttpOptions)
    (resp : HttpResponse) :
    (r.custom_http_resp opts resp = Except.ok ()) ↔ resp.status = opts.ok := by
  unfold Resource.custom_http_resp
  by_cases hs : resp.status = opts.ok
  · simp [hs]
  · cases hb : resp.body <;> simp [hs, hb]

theorem custom_http_resp_detail (r : Resource) (opts : HttpOptions)
    (resp : HttpResponse) (t : String) (hb : resp.body = Except.ok t)
    (hne : resp.status ≠ opts.ok) :
    r.custom_http_resp opts resp = Except.error (statusDetailMsg resp.status t) := by
  unfold Resource.custom_http_resp
  simp [hne, hb]

theorem custom_http_resp_body_error (r : Resource) (opts : HttpOptions)
    (resp : HttpResponse) (e : String) (hb : resp.body = Except.error e)
    (hne : resp.status ≠ opts.ok) :
    r.custom_http_resp opts resp = Except.error e := by
  unfold Resource.custom_http_resp
  simp [hne, hb]

/-- C5: with custom options, form parameters present means exactly one
form-encoded POST to the address; only a JSON body present means exactly one
JSON POST; in both cases the check succeeds iff the numeric status equals
`opts.ok`, a transport error is a failure carrying it, and a non-matching
status with readable body yields the status/body failure detail. -/
theorem c5_http_custom_post (r : Resource) (net : Network) (opts : HttpOptions)
    (hk : r.kind = ResType.Http) (hc : r.custom = some opts) :
    (∀ p, opts.params = some p →
        (r.check net).2 = [Request.httpPostForm r.addr p]
        ∧ (∀ e, net.postForm r.addr p = Except.error e → (r.check net).1 = Except.error e)
        ∧ (∀ resp, net.postForm r.addr p = Except.ok resp →
            (((r.check net).1 = Except.ok ()) ↔ resp.status = opts.ok)
            ∧ (∀ t, resp.body = Except.ok t → resp.status ≠ opts.ok →
                (r.check net).1 = Except.error (statusDetailMsg resp.status t))))
    ∧ (∀ j, opts.params = none → opts.json = some j →
        (r.check net).2 = [Request.httpPostJson r.addr j]
        ∧ (∀ e, net.postJson r.addr j = Except.error e → (r.check net).1 = Except.error e)
        ∧ (∀ resp, net.postJson r.addr j = Except.ok resp →
            (((r.check net).1 = Except.ok ()) ↔ resp.status = opts.ok)
            ∧ (∀ t, resp.body = Except.ok t → resp.status ≠ opts.ok →
                (r.check net).1 = Except.error (statusDetailMsg resp.status t)))) := by
  rw [check_of_http_custom r net opts hk hc]
  unfold Resource.check_http_custom
  constructor
  · intro p hp
    rw [hp]
    refine ⟨rfl, ?_, ?_⟩
    · intro e he
      simp [he]
    · intro resp hresp
      refine ⟨?_, ?_⟩
      · simp only [hresp]
        exact custom_http_resp_ok_iff r opts resp
      · intro t ht hne
        simp only [hresp]
        exact custom_http_resp_detail r opts resp t ht hne
  · intro j hp hj
    rw [hp, hj]
    refine ⟨rfl, ?_, ?_⟩
    · intro e he
      simp [he]
    · intro resp hresp
      refine ⟨?_, ?_⟩
      · simp only [hresp]
        exact custom_http_resp_ok_iff r opts resp
      · intro t ht hne
        simp only [hresp]
        exact custom_http_resp_detail r opts resp t ht hne

/-- Custom options whose form parameters are set (with `ok = 201`). -/
def cOptsForm : HttpOptions := { params := some [("k", "v")], json := none, ok := 201 }

/-- Custom options with only a JSON body set. -/
def cOptsJson : HttpOptions :=
  { params := none, json := some { payload := "x" }, ok := 200 }

/-- Custom options with both form parameters and a JSON body set. -/
def cOptsBoth : HttpOptions :=
  { params := some [("a", "b")], json := some { payload := "y" }, ok := 201 }

/-- A custom HTTP target using form parameters. -/
def cHttpForm : Resource :=
  { desc := "form", addr := "https://form.example", custom := some cOptsForm,
    kind := ResType.Http, res := none }

/-- A custom HTTP target using a JSON body. -/
def cHttpJson : Resource :=
  { desc := "json", addr := "https://json.example", custom := some cOptsJson,
    kind := ResType.Http, res := none }

/-- A custom HTTP target with both form parameters and a JSON body. -/
def cHttpBoth : Resource :=
  { desc := "both", addr := "https://both.example", custom := some cOptsBoth,
    kind := ResType.Http, res := none }

/-- Witness for C5: the form target sends exactly the form POST and succeeds
against a 201 response; the JSON-only target sends exactly the JSON POST. -/
theorem c5_http_custom_post_witness :
    (cHttpForm.check cNet).2 = [Request.httpPostForm cHttpForm.addr [("k", "v")]]
    ∧ (cHttpForm.check cNet).1 = Except.ok ()
    ∧ (cHttpJson.check cNet).2
        = [Request.httpPostJson cHttpJson.addr { payload := "x" }] := by
  have hf := (c5_http_custom_post cHttpForm cNet cOptsForm rfl rfl).1 [("k", "v")] rfl
  have hj := (c5_http_custom_post cHttpJson cNet cOptsJson rfl rfl).2
    { payload := "x" } rfl rfl
  refine ⟨hf.1, ?_, hj.1⟩
  have hresp : cNet.postForm cHttpForm.addr [("k", "v")]
      = Except.ok { status := 201, body := Except.ok "created" } := rfl
  exact ((hf.2.2 _ hresp).1).mpr rfl

/-- C6: when both form parameters and a JSON body are set, the form
parameters take precedence: the request log is exactly the one form POST, no
JSON POST is sent, and the check's outcome is unchanged under arbitrary
replacement of the oracle's JSON-POST behavior (the JSON body is unused). -/
theorem c6_params_precedence (r : Resource) (net : Network) (opts : HttpOptions)
    (p : List (String × String)) (j : Json)
    (hk : r.kind = ResType.Http) (hc : r.custom = some opts)
    (hp : opts.params = some p) (_hj : opts.json = some j) :
    (r.check net).2 = [Request.httpPostForm r.addr p]
    ∧ (r.check net).2.length = 1
    ∧ (∀ a jj, Request.httpPostJson a jj ∉ (r.check net).2)
    ∧ (∀ f, r.check { net with postJson := f } = r.check net) := by
  have hlog : (r.check net).2 = [Request.httpPostForm r.addr p] := by
    rw [check_of_http_custom r net opts hk hc]
    unfold Resource.check_http_custom
    rw [hp]
  refine ⟨hlog, by rw [hlog]; rfl, ?_, ?_⟩
  · intro a jj hmem
    rw [hlog] at hmem
    exact Request.noConfusion (List.mem_singleton.1 hmem)
  · intro f
    rw [check_of_http_custom r { net with postJson := f } opts hk hc,
      check_of_http_custom r net opts hk hc]
    unfold Resource.check_http_custom
    rw [hp]

/-- Witness for C6 at the both-set target: exactly one request, the form
POST. -/
theorem c6_params_precedence_witness :
    (cHttpBoth.check cNet).2 = [Request.httpPostForm cHttpBoth.addr [("a", "b")]]
    ∧ (cHttpBoth.check cNet).2.length = 1 := by
  have h := c6_params_precedence cHttpBoth cNet cOptsBoth [("a", "b")]
    { payload := "y" } rfl rfl rfl rfl
  exact ⟨h.1, h.2.1⟩

/-- A concrete TCP target. -/
def cTcp : Resource :=
  { desc := "db", addr := "db.example:5432", custom := none,
    kind := ResType.Tcp, res := none }

/-- A network where TCP connects are established but the subsequent shutdown
of the stream fails. -/
def cNetShutdownFail : Network where
  tcpConnect := fun _ => Except.ok ()
  tcpShutdown := fun _ => Except.error "shutdown refused"
  get := fun _ => Except.error "no http"
  postForm := fun _ _ => Except.error "no http"
  postJson := fun _ _ => Except.error "no http"

/-- Counterexample to C7 as stated: the TCP check does not succeed exactly
when the connection is established — here the connection is established, yet
the check fails, because `stream.shutdown(Shutdown::Both)?` also propagates
its error. -/
theorem c7_counterexample :
    cNetShutdownFail.tcpConnect cTcp.addr = Except.ok ()
    ∧ (cTcp.check cNetShutdownFail).1 = Except.error "shutdown refused"
    ∧ ¬(((cTcp.check cNetShutdownFail).1 = Except.ok ())
        ↔ cNetShutdownFail.tcpConnect cTcp.addr = Except.ok ()) := by
  refine ⟨rfl, rfl, ?_⟩
  intro h
  exact absurd (h.mpr rfl) (by decide)

/-- C7 (amended): a TCP check connects to the target's address — a connect
refusal/error surfaces as that failure; on an established connection it
immediately shuts the stream down in both directions and succeeds iff that
shutdown also succeeds (a shutdown error is propagated as the failure); no
network action other than the connect and the both-direction shutdown is
performed (no data exchange); and any `custom` options on a TCP target are
ignored. -/
theorem c7_tcp_check_amended (r : Resource) (net : Network)
    (hk : r.kind = ResType.Tcp) :
    (∀ e, net.tcpConnect r.addr = Except.error e →
        (r.check net).1 = Except.error e
        ∧ (r.check net).2 = [Request.tcpConnect r.addr])
    ∧ (net.tcpConnect r.addr = Except.ok () →
        (r.check net).2 = [Request.tcpConnect r.addr, Request.tcpShutdownBoth r.addr]
        ∧ (((r.check net).1 = Except.ok ()) ↔ net.tcpShutdown r.addr = Except.ok ())
        ∧ (∀ e, net.tcpShutdown r.addr = Except.error e →
            (r.check net).1 = Except.error e))
    ∧ (∀ ev, ev ∈ (r.check net).2 →
        ev = Request.tcpConnect r.addr ∨ ev = Request.tcpShutdownBoth r.addr)
    ∧ (∀ c, ({ r with custom := c } : Resource).check net = r.check net) := by
  rw [check_of_tcp r net hk]
  refine ⟨?_, ?_, ?_, ?_⟩
  · intro e he
    unfold Resource.check_tcp
    rw [he]
    exact ⟨rfl, rfl⟩
  · intro hok
    unfold Resource.check_tcp
    rw [hok]
    refine ⟨?_, ?_, ?_⟩
    · cases net.tcpShutdown r.addr <;> rfl
    · cases hsd : net.tcpShutdown r.addr with
      | error e => simp [hsd]
      | ok u => cases u; simp [hsd]
    · intro e he
      simp [he]
  · intro ev hev
    unfold Resource.check_tcp at hev
    cases hc : net.tcpConnect r.addr with
    | error e =>
      rw [hc] at hev
      simp at hev
      exact Or.inl hev
    | ok u =>
      rw [hc] at hev
      cases hsd : net.tcpShutdown r.addr with
      | error e =>
        rw [hsd] at hev
        simp at hev
        exact hev
      | ok v =>
        rw [hsd] at hev
        simp at hev
        exact hev
  · intro c
    rw [check_of_tcp { r with custom := c } net hk]
    rfl

/-- Witness for the amended C7: against a cleanly connecting and shutting
network the TCP check performs the connect and the both-direction shutdown
and succeeds. -/
theorem c7_tcp_check_amended_witness :
    (cTcp.check cNet).2
      = [Request.tcpConnect cTcp.addr, Request.tcpShutdownBoth cTcp.addr]
    ∧ (cTcp.check cNet).1 = Except.ok () := by
  have h := c7_tcp_check_amended cTcp cNet rfl
  have hok := h.2.1 rfl
  exact ⟨hok.1, (hok.2.1).mpr rfl⟩

/-- C8: per-target failures are non-fatal and caught at the checker boundary:
`check_resources` always completes with a full, same-length target list; each
target's final state is a function of that target alone (so one target's
failure cannot abort or alter another's check); every processed target has a
recorded result; and a check error is converted into that target's
"Failed to connect" result string. -/
theorem c8_failures_nonfatal (net : Network) (ms : Nat → Nat)
    (nr : NetworkResources) :
    (NetworkResources.check_resources net ms nr).1.target.length = nr.target.length
    ∧ (∀ i r, nr.target[i]? = some r →
        (NetworkResources.check_resources net ms nr).1.target[i]?
          = some (checkedTarget net (ms i) r)
        ∧ (checkedTarget net (ms i) r).res.isSome = true
        ∧ (∀ e, (r.check net).1 = Except.error e →
            (checkedTarget net (ms i) r).res
              = some ("Failed to connect to " ++ r.desc ++ " with: " ++ e))) := by
  refine ⟨checkAllFrom_length net ms nr.target 0, ?_⟩
  intro i r hi
  refine ⟨?_, rfl, ?_⟩
  · show (checkAllFrom net ms 0 nr.target)[i]? = _
    rw [checkAllFrom_getElem?, Nat.zero_add, hi]
    rfl
  · intro e he
    simp [checkedTarget, resultMsg, he]

/-- Witness for C8: in the concrete two-target set the 404 target's failure
is recorded as its result string while the run still reports both targets. -/
theorem c8_failures_nonfatal_witness :
    (NetworkResources.check_resources cNet cMs cNR).1.target.length = cNR.target.length
    ∧ (checkedTarget cNet (cMs 1) cHttpBad).res
        = some ("Failed to connect to " ++ cHttpBad.desc ++ " with: "
            ++ statusDetailMsg 404 "missing") := by
  have h := c8_failures_nonfatal cNet cMs cNR
  exact ⟨h.1, (h.2 1 cHttpBad rfl).2.2 (statusDetailMsg 404 "missing") rfl⟩

/-- A network whose HTTP responses report status 500 but whose body read
(`resp.text()`) fails. -/
def cNetBodyFail : Network where
  tcpConnect := fun _ => Except.error "no tcp"
  tcpShutdown := fun _ => Except.error "no tcp"
  get := fun _ => Except.ok { status := 500, body := Except.error "body boom" }
  postForm := fun _ _ => Except.ok { status := 500, body := Except.error "body boom" }
  postJson := fun _ _ => Except.ok { status := 500, body := Except.error "body boom" }

/-- Counterexample to C9 as stated: a basic HTTP check receives a 500
response whose body read fails; the resulting failure detail is the body-read
error itself, not a status-code report with an empty/placeholder body —
`resp.text()?` replaces the detail instead of degrading gracefully. -/
theorem c9_counterexample :
    (cHttpBad.check cNetBodyFail).1 = Except.error "body boom"
    ∧ (cHttpBad.check cNetBodyFail).1 ≠ Except.error (statusDetailMsg 500 "") := by
  exact ⟨rfl, by decide⟩

/-- C9 (amended): when an HTTP check fails with a non-matching status and
reading the response body fails while building the failure detail, the
body-read error becomes the check's failure detail (the status-code message
is not built) — on the basic GET path and on both custom POST paths — and
the run still does not fail: `check_resources` records that error as the
target's "Failed to connect" result. -/
theorem c9_body_read_error_amended (r : Resource) (net : Network)
    (resp : HttpResponse) (e : String) (hk : r.kind = ResType.Http)
    (hb : resp.body = Except.error e) :
    (r.custom = none → net.get r.addr = Except.ok resp → resp.status ≠ 200 →
        (r.check net).1 = Except.error e)
    ∧ (∀ opts p, r.custom = some opts → opts.params = some p →
        net.postForm r.addr p = Except.ok resp → resp.status ≠ opts.ok →
        (r.check net).1 = Except.error e)
    ∧ (∀ opts j, r.custom = some opts → opts.params = none → opts.json = some j →
        net.postJson r.addr j = Except.ok resp → resp.status ≠ opts.ok →
        (r.check net).1 = Except.error e)
    ∧ (∀ (ms : Nat → Nat) (i : Nat) (nr : NetworkResources), nr.target[i]? = some r →
        (r.check net).1 = Except.error e →
        (NetworkResources.check_resources net ms nr).1.target[i]?
          = some { r with res := some ("Failed to connect to " ++ r.desc
              ++ " with: " ++ e) }) := by
  refine ⟨?_, ?_, ?_, ?_⟩
  · intro hc hresp hs
    rw [check_of_http_basic r net hk hc]
    unfold Resource.check_http_basic
    simp [hresp, hs, hb]
  · intro opts p hc hp hresp hs
    rw [check_of_http_custom r net opts hk hc]
    unfold Resource.check_http_custom
    rw [hp]
    simp only [hresp]
    exact custom_http_resp_body_error r opts resp e hb hs
  · intro opts j hc hp hj hresp hs
    rw [check_of_http_custom r net opts hk hc]
    unfold Resource.check_http_custom
    rw [hp, hj]
    simp only [hresp]
    exact custom_http_resp_body_error r opts resp e hb hs
  · intro ms i nr hi he
    show (checkAllFrom net ms 0 nr.target)[i]? = _
    rw [checkAllFrom_getElem?, Nat.zero_add, hi]
    simp [checkedTarget, resultMsg, he]

/-- Witness for the amended C9 at the concrete body-read-failure network. -/
theorem c9_body_read_error_amended_witness :
    (cHttpBad.check cNetBodyFail).1 = Except.error "body boom"
    ∧ (NetworkResources.check_resources cNetBodyFail cMs
        { target := [cHttpBad] }).1.target[0]?
      = some { cHttpBad with res := some ("Failed to connect to "
          ++ cHttpBad.desc ++ " with: " ++ "body boom") } := by
  have h := c9_body_read_error_amended cHttpBad cNetBodyFail
    { status := 500, body := Except.error "body boom" } "body boom" rfl rfl
  have h1 := h.1 rfl rfl (by decide)
  exact ⟨h1, h.2.2.2 cMs 0 { target := [cHttpBad] } rfl h1⟩

/-- Custom HTTP options with neither `params` nor `json` set. -/
def cOptsEmpty : HttpOptions := { params := none, json := none, ok := 200 }

/-- An HTTP target carrying the empty custom options block. -/
def cHttpEmpty : Resource :=
  { desc := "empty", addr := "https://empty.example", custom := some cOptsEmpty,
    kind := ResType.Http, res := none }

/-- A one-target resource set holding the empty-custom target. -/
def cNREmpty : NetworkResources := { target := [cHttpEmpty] }

/-- Counterexample to C2 as stated: for an HTTP target whose custom options
have neither params nor json, after `check_resources` the result slot is NOT
absent — it holds a (spurious) success message — and its report line is NOT
dropped. -/
theorem c2_counterexample :
    ((NetworkResources.check_resources cNet cMs cNREmpty).1.target.map
        (fun r => r.res))
      = [some "Successfully connected to empty in 3ms"]
    ∧ (NetworkResources.check_resources cNet cMs cNREmpty).2
      = ["Successfully connected to empty in 3ms"] := by
  exact ⟨rfl, rfl⟩

/-- C2 (amended): for an HTTP target whose custom options have neither form
parameters nor a JSON body, the check sends no request, but a result IS
recorded: `check_http_custom` falls through to `Ok(())`, so `check_resources`
fills the target's slot with the success message and the report line is
printed, not dropped. -/
theorem c2_empty_custom_amended (r : Resource) (net : Network) (ms : Nat → Nat)
    (nr : NetworkResources) (i : Nat) (opts : HttpOptions)
    (hi : nr.target[i]? = some r) (hk : r.kind = ResType.Http)
    (hc : r.custom = some opts) (hp : opts.params = none) (hj : opts.json = none) :
    (r.check net).2 = []
    ∧ (r.check net).1 = Except.ok ()
    ∧ (NetworkResources.check_resources net ms nr).1.target[i]?
        = some { r with res := some ("Successfully connected to " ++ r.desc
            ++ " in " ++ toString (ms i) ++ "ms") }
    ∧ ("Successfully connected to " ++ r.desc ++ " in " ++ toString (ms i) ++ "ms")
        ∈ (NetworkResources.check_resources net ms nr).2 := by
  have hcheck : r.check net = (Except.ok (), []) := by
    rw [check_of_http_custom r net opts hk hc]
    unfold Resource.check_http_custom
    rw [hp, hj]
  have hmsg : resultMsg net (ms i) r
      = "Successfully connected to " ++ r.desc ++ " in " ++ toString (ms i) ++ "ms" := by
    unfold resultMsg
    rw [hcheck]
  have hslot : (NetworkResources.check_resources net ms nr).1.target[i]?
      = some (checkedTarget net (ms i) r) := by
    show (checkAllFrom net ms 0 nr.target)[i]? = _
    rw [checkAllFrom_getElem?, Nat.zero_add, hi]
    rfl
  refine ⟨by rw [hcheck], by rw [hcheck], ?_, ?_⟩
  · rw [hslot]
    unfold checkedTarget
    rw [hmsg]
  · show _ ∈ (checkAllFrom net ms 0 nr.target).filterMap (fun r => r.res)
    rw [List.mem_filterMap]
    have hmem : checkedTarget net (ms i) r
        ∈ (NetworkResources.check_resources net ms nr).1.target :=
      List.getElem?_mem hslot
    refine ⟨checkedTarget net (ms i) r, hmem, ?_⟩
    show some (resultMsg net (ms i) r) = _
    rw [hmsg]

/-- Witness for the amended C2 at the concrete empty-custom target. -/
theorem c2_empty_custom_amended_witness :
    (cHttpEmpty.check cNet).2 = []
    ∧ (cHttpEmpty.check cNet).1 = Except.ok ()
    ∧ (NetworkResources.check_resources cNet cMs cNREmpty).1.target[0]?
        = some { cHttpEmpty with res := some ("Successfully connected to "
            ++ cHttpEmpty.desc ++ " in " ++ toString (cMs 0) ++ "ms") } := by
  have h := c2_empty_custom_amended cHttpEmpty cNet cMs cNREmpty 0 cOptsEmpty
    rfl rfl rfl rfl rfl
  exact ⟨h.1, h.2.1, h.2.2.1⟩

/-- C10 (frame property): `check_resources` mutates only each target's `res`
field — the number and order of targets is preserved, and every target's
`desc`, `addr`, `kind` and `custom` fields are identical before and after. -/
theorem c10_frame_only_res (net : Network) (ms : Nat → Nat)
    (nr : NetworkResources) :
    (NetworkResources.check_resources net ms nr).1.target.length = nr.target.length
    ∧ (∀ (i : Nat) (r : Resource), nr.target[i]? = some r →
        ∃ s : Resource,
          (NetworkResources.check_resources net ms nr).1.target[i]? = some s
          ∧ s.desc = r.desc ∧ s.addr = r.addr ∧ s.kind = r.kind
          ∧ s.custom = r.custom) := by
  refine ⟨checkAllFrom_length net ms nr.target 0, ?_⟩
  intro i r hi
  refine ⟨checkedTarget net (ms i) r, ?_, rfl, rfl, rfl, rfl⟩
  show (checkAllFrom net ms 0 nr.target)[i]? = _
  rw [checkAllFrom_getElem?, Nat.zero_add, hi]
  rfl

/-- Witness for C10 at the concrete two-target set. -/
theorem c10_frame_only_res_witness :
    (NetworkResources.check_resources cNet cMs cNR).1.target.length
      = cNR.target.length
    ∧ ∃ s, (NetworkResources.check_resources cNet cMs cNR).1.target[0]? = some s
        ∧ s.desc = cHttpOk.desc ∧ s.addr = cHttpOk.addr ∧ s.kind = cHttpOk.kind
        ∧ s.custom = cHttpOk.custom := by
  have h := c10_frame_only_res cNet cMs cNR
  exact ⟨h.1, h.2 0 cHttpOk rfl⟩

end Connchk
